import Mathlib

/-!
Verification of the IB connection / client-id allocator of
`sysbrokers/IB/ibConnection.py`.

The lock table (a mongo collection with a unique index on `client_id`) is
modelled as a `Finset ℤ` of currently held ids.  Python exceptions are
modelled with `Except PyError`.
-/

/-- The Python exceptions that the embedded code can raise. -/
inductive PyError : Type
  /-- `ValueError`, e.g. from `min` of an empty collection. -/
  | valueError : PyError
  /-- `pymongo` duplicate-key failure from the unique index on `client_id`. -/
  | duplicateKey : PyError
  /-- `AttributeError` from looking up an attribute that does not exist. -/
  | attributeError : PyError
deriving DecidableEq, Repr

/-- Source: `DEFAULT_IB_IPADDRESS='127.0.0.1'`. -/
def DEFAULT_IB_IPADDRESS : String := "127.0.0.1"

/-- Source: `DEFAULT_IB_PORT = 4001`. -/
def DEFAULT_IB_PORT : ℤ := 4001

/-- Source: `DEFAULT_IB_IDOFFSET = 1`. -/
def DEFAULT_IB_IDOFFSET : ℤ := 1

/-- The private-config yaml dictionary, restricted to the three keys
`ib_defaults` consults (`ib_ipaddress`, `ib_port`, `ib_idoffset`);
a `none` field means the key is absent from the dictionary. -/
structure YamlDict : Type where
  ib_ipaddress : Option String
  ib_port : Option ℤ
  ib_idoffset : Option ℤ
deriving DecidableEq, Repr

/-- The empty dictionary `yaml_dict={}` produced by the `except:` branch of
`ib_defaults` when the config file is missing or unparsable. -/
def emptyYamlDict : YamlDict := YamlDict.mk none none none

/-- The `for arg_name in [...]` loop of `ib_defaults`: each passed (non-`None`)
keyword argument overwrites the corresponding `ib_`-prefixed dictionary key. -/
def overwriteWithKwargs (d : YamlDict) (ipaddress : Option String)
    (port idoffset : Option ℤ) : YamlDict :=
  YamlDict.mk
    (match ipaddress with | some v => some v | none => d.ib_ipaddress)
    (match port with | some v => some v | none => d.ib_port)
    (match idoffset with | some v => some v | none => d.ib_idoffset)

/-- Source: `ib_defaults(config_file=PRIVATE_CONFIG_FILE, **kwargs)`.
The file system is abstracted as `config_file : Option YamlDict`, where
`none` stands for a missing or unparsable file (the bare `except:` turns
any read or parse failure into `yaml_dict={}`). -/
def ib_defaults (config_file : Option YamlDict) (ipaddress : Option String)
    (port idoffset : Option ℤ) : String × ℤ × ℤ :=
  let yaml_dict : YamlDict :=
    match config_file with
    | some d => d
    | none => emptyYamlDict
  let d := overwriteWithKwargs yaml_dict ipaddress port idoffset
  ( (d.ib_ipaddress).getD DEFAULT_IB_IPADDRESS,
    (d.ib_port).getD DEFAULT_IB_PORT,
    (d.ib_idoffset).getD DEFAULT_IB_IDOFFSET )

/-- Modelled from the spec: the mongo collection `IBClientTracker` carries a
uniqueness constraint on `client_id` (`create_index`, and the spec's
`insert(client_id)` fails with `DuplicateKey` if a record for that ID already
exists).  `mongoConnection` itself is not under `src/`, so the table is the
set of held ids and `insert_one` is checked insertion. -/
def _add_clientid (s : Finset ℤ) (next_id : ℤ) : Except PyError (Finset ℤ) :=
  if next_id ∈ s then Except.error PyError.duplicateKey
  else Except.ok (insert next_id s)

/-- Modelled from the spec: `delete_one(dict(client_id=clientid))` removes the
record if present, no error if absent; with the unique index there is at most
one record per id, so this removes the id from the held set. -/
def release_clientid (s : Finset ℤ) (clientid : ℤ) : Finset ℤ :=
  s.erase clientid

/-- Source: `_get_list_of_clientids` returns every held id from the
collection; under the `Finset` table model it is the table itself. -/
def _get_list_of_clientids (s : Finset ℤ) : Finset ℤ := s

/-- Source: `_is_clientid_used`: membership of `clientid` in the list of
current ids. -/
def _is_clientid_used (s : Finset ℤ) (clientid : ℤ) : Bool :=
  clientid ∈ _get_list_of_clientids s

/-- The pure computation inside `get_next_clientid`, before the lock:
`none` models the `ValueError` that `min(missing_values)` raises when
`missing_values` is empty. -/
def next_id_calc (idoffset : ℤ) (s : Finset ℤ) : Option ℤ :=
  let current_list := _get_list_of_clientids s
  if h : current_list = ∅ then some idoffset
  else
    let hne : current_list.Nonempty := Finset.nonempty_iff_ne_empty.mpr h
    let full_set := Finset.Icc idoffset (current_list.max' hne + 1)
    let missing_values := full_set \ current_list
    if h2 : missing_values.Nonempty then some (missing_values.min' h2)
    else none

/-- Source: `get_next_clientid`, with the read state and the write state
distinguished so that a concurrent insert between the read and the lock can
be expressed: the candidate is computed from `readS` and inserted into
`writeS`.  The sequential call is `readS = writeS`
(see `get_next_clientid_run`). -/
def get_next_clientid_conc (idoffset : ℤ) (readS writeS : Finset ℤ) :
    Except PyError (ℤ × Finset ℤ) :=
  match next_id_calc idoffset readS with
  | none => Except.error PyError.valueError
  | some next_id =>
    match _add_clientid writeS next_id with
    | Except.error e => Except.error e
    | Except.ok s2 => Except.ok (next_id, s2)

/-- Source: `get_next_clientid` run sequentially against one table state;
returns the locked id and the new table state. -/
def get_next_clientid_run (idoffset : ℤ) (s : Finset ℤ) :
    Except PyError (ℤ × Finset ℤ) :=
  get_next_clientid_conc idoffset s s

/-- The attribute names defined on class `mongoIBclientIDtracker` in the
source (methods of the class body; the base class `object` adds none of
interest).  Python attribute lookup on `self` consults exactly these. -/
def mongoIBclientIDtracker_methods : List String :=
  ["__init__", "__repr__", "_is_clientid_used", "return_valid_client_id",
   "get_next_clientid", "_get_list_of_clientids", "_add_clientid",
   "clear_all_clientids", "release_clientid"]

/-- Source: `return_valid_client_id(clientid_to_try)`.  The `elif` branch is
written `self.is_clientid_used(clientid_to_try)` in the source; the lookup of
that attribute is embedded faithfully: if the name is not among the class's
attributes the call raises `AttributeError`. -/
def return_valid_client_id (idoffset : ℤ) (s : Finset ℤ)
    (clientid_to_try : Option ℤ) : Except PyError (ℤ × Finset ℤ) :=
  match clientid_to_try with
  | none => get_next_clientid_run idoffset s
  | some c =>
    if ("is_clientid_used" : String) ∈ mongoIBclientIDtracker_methods then
      if _is_clientid_used s c then get_next_clientid_run idoffset s
      else
        match _add_clientid s c with
        | Except.error e => Except.error e
        | Except.ok s2 => Except.ok (c, s2)
    else Except.error PyError.attributeError

/-- Source: `clear_all_clientids` deletes every record. -/
def clear_all_clientids (_s : Finset ℤ) : Finset ℤ := ∅

/-- Source: `close_connection`: `try: self.disconnect() except: log.warn(...)
finally: release_clientid(client)`.  The external `disconnect` is abstracted
by the flag `disconnectRaises`; the bare `except:` absorbs its failure, and
the `finally:` block releases the client id on both paths. -/
def close_connection (disconnectRaises : Bool) (s : Finset ℤ) (client : ℤ) :
    Except PyError (Finset ℤ) :=
  match (if disconnectRaises then Except.error PyError.valueError
         else Except.ok ()) with
  | Except.ok _ => Except.ok (release_clientid s client)
  | Except.error _ => Except.ok (release_clientid s client)

/-- Source: `reqIDoffset = client*1000` in `connectionIB.__init__`. -/
def reqIDoffset (client : ℤ) : ℤ := client * 1000

/-- Modelled from the spec: the request-ID sub-namespace of a session is the
block of a thousand identifiers starting at its `reqIDoffset` (`ibClient`,
which consumes `reqIDoffset`, is not under `src/`; the spec derives "a
disjoint request-numbering sub-namespace" from `client_id * 1000`). -/
def reqIDnamespace (client : ℤ) : Finset ℤ :=
  Finset.Ico (reqIDoffset client) (reqIDoffset client + 1000)

/-- The id offset `connectionIB.__init__` resolves and hands to the
allocator: the source calls `ib_defaults(ipaddress=ipaddress, port=port)`,
never forwarding `client`, `log` or an `idoffset` argument. -/
def connectionIB_resolved_idoffset (config_file : Option YamlDict)
    (_client : Option ℤ) (ipaddress : Option String) (port : Option ℤ)
    (_log : String) : ℤ :=
  (ib_defaults config_file ipaddress port none).2.2

/-- Source: the allocation and configuration part of `connectionIB.__init__`:
resolve defaults, allocate a client id through the tracker, record the
connection config and derive `reqIDoffset`.  Returns the connection config
triple, the request-id offset handed to `ibClient`, and the new table. -/
def connectionIB_init (config_file : Option YamlDict) (client : Option ℤ)
    (ipaddress : Option String) (port : Option ℤ) (log : String)
    (s : Finset ℤ) : Except PyError ((String × ℤ × ℤ) × ℤ × Finset ℤ) :=
  let resolved := ib_defaults config_file ipaddress port none
  let idoffset := connectionIB_resolved_idoffset config_file client ipaddress
    port log
  match return_valid_client_id idoffset s client with
  | Except.error e => Except.error e
  | Except.ok (c, s2) =>
    Except.ok ((resolved.1, resolved.2.1, c), reqIDoffset c, s2)

instance exceptDecidableEq {ε α : Type} [DecidableEq ε] [DecidableEq α] :
    DecidableEq (Except ε α)
  | Except.error e, Except.error f =>
    if h : e = f then Decidable.isTrue (congrArg Except.error h)
    else Decidable.isFalse (fun hh => h (Except.error.inj hh))
  | Except.error _, Except.ok _ =>
    Decidable.isFalse (fun hh => Except.noConfusion hh)
  | Except.ok _, Except.error _ =>
    Decidable.isFalse (fun hh => Except.noConfusion hh)
  | Except.ok a, Except.ok b =>
    if h : a = b then Decidable.isTrue (congrArg Except.ok h)
    else Decidable.isFalse (fun hh => h (Except.ok.inj hh))

lemma next_id_calc_empty (idoffset : ℤ) :
    next_id_calc idoffset ∅ = some idoffset := by
  simp [next_id_calc, _get_list_of_clientids]

lemma next_id_calc_nonempty (idoffset : ℤ) (s : Finset ℤ) (hne : s.Nonempty)
    (h2 : (Finset.Icc idoffset (s.max' hne + 1) \ s).Nonempty) :
    next_id_calc idoffset s =
      some ((Finset.Icc idoffset (s.max' hne + 1) \ s).min' h2) := by
  have hno : ¬ s = ∅ := Finset.nonempty_iff_ne_empty.mp hne
  simp only [next_id_calc, _get_list_of_clientids, hno, dite_false,
    dif_neg hno, dif_pos h2]

lemma next_id_calc_gap (idoffset : ℤ) (s : Finset ℤ) (hne : s.Nonempty)
    (hlt : s.max' hne + 1 < idoffset) :
    next_id_calc idoffset s = none := by
  have hno : ¬ s = ∅ := Finset.nonempty_iff_ne_empty.mp hne
  have hicc : Finset.Icc idoffset (s.max' hne + 1) = ∅ :=
    Finset.Icc_eq_empty (by omega)
  have h2 : ¬ (Finset.Icc idoffset (s.max' hne + 1) \ s).Nonempty := by
    rw [hicc]
    simp
  simp only [next_id_calc, _get_list_of_clientids, dif_neg hno, dif_neg h2]

/-- Claim C1: with no requested id, `get_next_clientid` returns the
configured offset on an empty table, and otherwise the minimum element of
`{offset, ..., max(S)+1}` not already held; in both cases the returned id is
inserted into the table before returning. -/
theorem get_next_clientid_spec (idoffset : ℤ) (s : Finset ℤ) :
    (s = ∅ → get_next_clientid_run idoffset s =
      Except.ok (idoffset, insert idoffset s)) ∧
    (∀ (hne : s.Nonempty)
       (h2 : (Finset.Icc idoffset (s.max' hne + 1) \ s).Nonempty),
       get_next_clientid_run idoffset s =
         Except.ok ((Finset.Icc idoffset (s.max' hne + 1) \ s).min' h2,
           insert ((Finset.Icc idoffset (s.max' hne + 1) \ s).min' h2) s)) := by
  constructor
  · intro h
    subst h
    unfold get_next_clientid_run get_next_clientid_conc
    rw [next_id_calc_empty]
    simp [_add_clientid]
  · intro hne h2
    have hnot : (Finset.Icc idoffset (s.max' hne + 1) \ s).min' h2 ∉ s :=
      (Finset.mem_sdiff.mp (Finset.min'_mem _ h2)).2
    unfold get_next_clientid_run get_next_clientid_conc
    rw [next_id_calc_nonempty idoffset s hne h2]
    simp [_add_clientid, hnot]

/-- Witness for C1 at held ids `{offset, offset+1, offset+3}` with
`offset = 1`: the allocator returns `offset + 2 = 3` and locks it. -/
theorem get_next_clientid_spec_witness :
    get_next_clientid_run 1 ({1, 2, 4} : Finset ℤ) =
      Except.ok (3, insert (3 : ℤ) ({1, 2, 4} : Finset ℤ)) := by
  have h := (get_next_clientid_spec 1 {1, 2, 4}).2 (by decide) (by decide)
  rw [h]
  decide

/-- Claim C9: on a non-empty table, `get_next_clientid` succeeds exactly when
`offset ≤ max(S) + 1`; when every held id is below `offset - 1` the candidate
range is empty and the call fails with the `ValueError` of `min` on an empty
set instead of returning a free id. -/
theorem get_next_clientid_total_iff (idoffset : ℤ) (s : Finset ℤ)
    (hne : s.Nonempty) :
    (s.max' hne + 1 < idoffset →
      get_next_clientid_run idoffset s = Except.error PyError.valueError) ∧
    (idoffset ≤ s.max' hne + 1 →
      ∃ p, get_next_clientid_run idoffset s = Except.ok p) := by
  constructor
  · intro hlt
    unfold get_next_clientid_run get_next_clientid_conc
    rw [next_id_calc_gap idoffset s hne hlt]
  · intro hle
    have h2 : (Finset.Icc idoffset (s.max' hne + 1) \ s).Nonempty := by
      refine ⟨s.max' hne + 1, Finset.mem_sdiff.mpr ⟨?_, ?_⟩⟩
      · exact Finset.mem_Icc.mpr ⟨hle, le_refl _⟩
      · intro hmem
        have := Finset.le_max' s _ hmem
        omega
    have hnot : (Finset.Icc idoffset (s.max' hne + 1) \ s).min' h2 ∉ s :=
      (Finset.mem_sdiff.mp (Finset.min'_mem _ h2)).2
    refine ⟨((Finset.Icc idoffset (s.max' hne + 1) \ s).min' h2,
      insert ((Finset.Icc idoffset (s.max' hne + 1) \ s).min' h2) s), ?_⟩
    unfold get_next_clientid_run get_next_clientid_conc
    rw [next_id_calc_nonempty idoffset s hne h2]
    simp [_add_clientid, hnot]

/-- Witness for C9: held ids `{1}` with offset `5` make the call raise
`ValueError` instead of returning a free id. -/
theorem get_next_clientid_total_iff_witness :
    get_next_clientid_run 5 ({1} : Finset ℤ) =
      Except.error PyError.valueError :=
  (get_next_clientid_total_iff 5 {1} (by decide)).1 (by decide)

/-- Claim C2 (failing input): requesting the unused id `5` on an empty table
does not return `5`; the call raises `AttributeError`, because the source
invokes `self.is_clientid_used` while the method is defined as
`_is_clientid_used`. -/
theorem return_valid_client_id_unused_raises :
    return_valid_client_id 1 (∅ : Finset ℤ) (some 5) =
      Except.error PyError.attributeError := by
  decide

/-- Claim C3 (failing input): with held ids `{7}`, requesting `7` does not
silently fall back to the next free id; the call raises `AttributeError`
before the membership check can run, for the same misnamed-attribute reason
as C2. -/
theorem return_valid_client_id_held_raises :
    return_valid_client_id 1 ({7} : Finset ℤ) (some 7) =
      Except.error PyError.attributeError := by
  decide

/-- Claim C4: `close_connection` releases the session's client id on every
exit path: whether or not the external disconnect raises, the call returns
normally (the exception is absorbed) and the slot lock for the client id is
absent from the resulting table. -/
theorem close_connection_spec (disconnectRaises : Bool) (s : Finset ℤ)
    (client : ℤ) :
    close_connection disconnectRaises s client =
      Except.ok (release_clientid s client) ∧
    client ∉ release_clientid s client := by
  constructor
  · cases disconnectRaises <;> rfl
  · exact Finset.not_mem_erase client s

/-- Claim C5: `release_clientid` removes the record for the given client id
if present, is a no-op when the id was never locked, leaves every other id
unchanged, and `release(99)` on an empty table yields the empty table. -/
theorem release_clientid_spec (s : Finset ℤ) (c : ℤ) :
    c ∉ release_clientid s c ∧
    (∀ x : ℤ, x ≠ c → (x ∈ release_clientid s c ↔ x ∈ s)) ∧
    release_clientid (∅ : Finset ℤ) 99 = ∅ := by
  refine ⟨Finset.not_mem_erase c s, ?_, Finset.erase_empty 99⟩
  intro x hx
  simp [release_clientid, Finset.mem_erase, hx]

/-- Witness for C5: releasing `5` from `{3, 5}` removes `5` and keeps `3`. -/
theorem release_clientid_spec_witness :
    (5 : ℤ) ∉ release_clientid ({3, 5} : Finset ℤ) 5 ∧
    ((3 : ℤ) ∈ release_clientid ({3, 5} : Finset ℤ) 5 ↔
      (3 : ℤ) ∈ ({3, 5} : Finset ℤ)) :=
  ⟨(release_clientid_spec {3, 5} 5).1,
   (release_clientid_spec {3, 5} 5).2.1 3 (by decide)⟩

/-- Claim C6: `get_next_clientid` reads once and inserts once; if a
concurrent caller locked the computed candidate between the read and the
insert, the `DuplicateKey` failure propagates to the caller instead of being
retried with a recomputed id. -/
theorem get_next_clientid_no_retry (idoffset : ℤ) (readS writeS : Finset ℤ)
    (n : ℤ) (hcalc : next_id_calc idoffset readS = some n)
    (hdup : n ∈ writeS) :
    get_next_clientid_conc idoffset readS writeS =
      Except.error PyError.duplicateKey := by
  unfold get_next_clientid_conc
  rw [hcalc]
  simp [_add_clientid, hdup]

/-- Witness for C6: both racers read an empty table and compute candidate
`1`; the loser's insert fails with `DuplicateKey` and no retry happens. -/
theorem get_next_clientid_no_retry_witness :
    get_next_clientid_conc 1 (∅ : Finset ℤ) ({1} : Finset ℤ) =
      Except.error PyError.duplicateKey :=
  get_next_clientid_no_retry 1 ∅ {1} 1 (by decide) (by decide)

/-- Claim C7: `ib_defaults` resolves each field independently with
precedence passed argument over config-file value over hardcoded default
(`127.0.0.1`, `4001`, `1`), and a missing or unparsable config file behaves
exactly like an empty configuration, raising nothing. -/
theorem ib_defaults_precedence (cfg : YamlDict) (ipaddress : Option String)
    (port idoffset : Option ℤ) :
    ib_defaults (some cfg) ipaddress port idoffset =
      (ipaddress.getD (cfg.ib_ipaddress.getD DEFAULT_IB_IPADDRESS),
       port.getD (cfg.ib_port.getD DEFAULT_IB_PORT),
       idoffset.getD (cfg.ib_idoffset.getD DEFAULT_IB_IDOFFSET)) ∧
    ib_defaults none ipaddress port idoffset =
      ib_defaults (some emptyYamlDict) ipaddress port idoffset ∧
    DEFAULT_IB_IPADDRESS = "127.0.0.1" ∧ DEFAULT_IB_PORT = 4001 ∧
    DEFAULT_IB_IDOFFSET = 1 := by
  refine ⟨?_, rfl, rfl, rfl, rfl⟩
  cases ipaddress <;> cases port <;> cases idoffset <;> rfl

lemma connectionIB_init_ok_reqIDoffset (config_file : Option YamlDict)
    (client : Option ℤ) (ipaddress : Option String) (port : Option ℤ)
    (log : String) (s : Finset ℤ) (a : String) (p c r : ℤ) (s2 : Finset ℤ)
    (hinit : connectionIB_init config_file client ipaddress port log s =
      Except.ok ((a, p, c), r, s2)) :
    r = reqIDoffset c := by
  simp only [connectionIB_init] at hinit
  cases hc : return_valid_client_id
      (connectionIB_resolved_idoffset config_file client ipaddress port log)
      s client with
  | error e =>
    rw [hc] at hinit
    exact absurd hinit (by simp)
  | ok pr =>
    obtain ⟨cc, ss⟩ := pr
    rw [hc] at hinit
    simp only [Except.ok.injEq, Prod.mk.injEq] at hinit
    obtain ⟨⟨_, _, hcc⟩, hr, _⟩ := hinit
    rw [← hr, hcc]

/-- Claim C8: the request-identifier offset that `connectionIB.__init__`
hands to the protocol client equals the allocated `client_id * 1000`, and
the thousand-wide request-id sub-namespaces of sessions with distinct client
ids are disjoint. -/
theorem reqIDoffset_spec (config_file : Option YamlDict) (client : Option ℤ)
    (ipaddress : Option String) (port : Option ℤ) (log : String)
    (s : Finset ℤ) (a : String) (p c r : ℤ) (s2 : Finset ℤ) (c1 c2 : ℤ)
    (hinit : connectionIB_init config_file client ipaddress port log s =
      Except.ok ((a, p, c), r, s2))
    (hne : c1 ≠ c2) :
    r = c * 1000 ∧ Disjoint (reqIDnamespace c1) (reqIDnamespace c2) := by
  constructor
  · exact connectionIB_init_ok_reqIDoffset config_file client ipaddress port
      log s a p c r s2 hinit
  · rw [Finset.disjoint_left]
    intro x hx1 hx2
    rw [reqIDnamespace, reqIDoffset, Finset.mem_Ico] at hx1 hx2
    omega

/-- Witness for C8: a default construction against an empty table allocates
client id `1` and hands the protocol client the offset `1000 = 1 * 1000`;
the namespaces of client ids `1` and `2` are disjoint. -/
theorem reqIDoffset_spec_witness :
    (1000 : ℤ) = 1 * 1000 ∧
    Disjoint (reqIDnamespace 1) (reqIDnamespace 2) :=
  reqIDoffset_spec none none none none "" ∅ "127.0.0.1" 4001 1 1000 {1} 1 2
    (by decide) (by decide)

/-- Claim C10: the id offset `connectionIB.__init__` resolves and passes to
the allocator does not depend on the `client`, `ipaddress`, `port` or `log`
constructor arguments; it is always the config file's `ib_idoffset` value,
falling back to the hardcoded default. -/
theorem connectionIB_idoffset_independent (config_file : Option YamlDict)
    (client client' : Option ℤ) (ipaddress ipaddress' : Option String)
    (port port' : Option ℤ) (log log' : String) :
    connectionIB_resolved_idoffset config_file client ipaddress port log =
      connectionIB_resolved_idoffset config_file client' ipaddress' port'
        log' ∧
    connectionIB_resolved_idoffset config_file client ipaddress port log =
      ((config_file.getD emptyYamlDict).ib_idoffset).getD
        DEFAULT_IB_IDOFFSET := by
  constructor
  · unfold connectionIB_resolved_idoffset ib_defaults overwriteWithKwargs
    cases ipaddress <;> cases ipaddress' <;> cases port <;> cases port' <;>
      rfl
  · unfold connectionIB_resolved_idoffset ib_defaults overwriteWithKwargs
    cases config_file <;> cases ipaddress <;> cases port <;> rfl

/-- Witness for C4: with held ids `{4}` and a disconnect that raises, the
close still returns normally and id `4` is no longer held. -/
theorem close_connection_spec_witness :
    close_connection true ({4} : Finset ℤ) 4 =
      Except.ok (release_clientid ({4} : Finset ℤ) 4) ∧
    (4 : ℤ) ∉ release_clientid ({4} : Finset ℤ) 4 :=
  close_connection_spec true {4} 4
